import Mathlib

/-!
# Device discovery and session state of `bluetooth.cpp`

A shallow embedding of the class `bluetooth` (src/src/bluetooth.cpp): the
discovery callback `deviceDiscovered`, the slot `restart`, the accessor
`device`, the signal handler `handleSignal` and the persistence functions
`stateFileRead` / `stateFileUpdate`.

Modelling conventions.
* The object is a record of its four driver pointers, the name filter, the
  state of the discovery agent, the file `status.xml`, and a log of the
  externally visible effects (signals emitted, agent calls, `new`, `delete`,
  `connect`) in program order.
* A `QString` is a Lean `String`.
* Library functions whose code is not part of the file (case folding,
  `QString::number(x, 'f', prec)`, `QString::toDouble`, the virtual
  `deviceType()`) are fields of an environment record `Env`; the program is
  embedded once, for every environment.
* The XML text of `status.xml` is not modelled: the file holds the DOM tree
  that `QDomDocument` would produce from it.
* `debug` only prints; it has no effect on the state and is left out.
-/

namespace QZ

/-! ## Data model -/

/-- The four driver classes that `deviceDiscovered` instantiates; one per pointer member. -/
inductive DriverClass
  | domyostreadmill
  | domyosbike
  | toorxtreadmill
  | trxappgateusbtreadmill
  deriving DecidableEq, Repr

/-- Modelled from the spec: the enumeration returned by `deviceType()` (declared in
bluetoothdevice.h, which is not among the sources); the spec lists the kinds
Treadmill, Bike, Rower and Unknown. -/
inductive BluetoothType
  | UNKNOWN
  | TREADMILL
  | BIKE
  | ROWING
  deriving DecidableEq, Repr

/-- The part of `QBluetoothDeviceInfo` that the code reads. -/
structure DeviceInfo where
  name : String
  address : String
  deriving DecidableEq, Repr

/-- Method calls that `bluetooth` makes on a driver object. -/
inductive DriverCall (D : Type)
  | setLastSpeed (v : D)
  | setLastInclination (v : D)
  | deviceDiscovered (info : DeviceInfo)
  deriving DecidableEq, Repr

/-- A driver object as seen from `bluetooth`: the two metrics it reports and the
calls it has received so far, oldest first. -/
structure Driver (D : Type) where
  currentSpeed : D
  currentInclination : D
  calls : List (DriverCall D)
  deriving DecidableEq, Repr

/-- Externally visible effects, logged in program order. -/
inductive Effect
  | deviceFound (name : String)
  | deviceConnected
  | agentStart
  | agentStop
  | created (c : DriverClass)
  | deleted (c : DriverClass)
  | connected (c : DriverClass) (signal : String) (slot : String)
  deriving DecidableEq, Repr

/-- A child node of the document element. Only the tag and the attributes of a
child element are read by the code; any other node (text, comment) converts to
the null element under `toElement()`. -/
inductive Node
  | element (tag : String) (attrs : List (String × String))
  | other
  deriving DecidableEq, Repr

/-- The document element of `status.xml`. -/
structure Element where
  tag : String
  attrs : List (String × String)
  children : List Node
  deriving DecidableEq, Repr

/-- A parsed document; `root = none` is the null document element (empty or
malformed content). -/
structure Doc where
  root : Option Element
  deriving DecidableEq, Repr

/-- The file `status.xml` and whether it can be opened. -/
structure FileSys where
  statusXml : Option Doc
  readable : Bool
  writable : Bool
  deriving DecidableEq, Repr

/-- Library and driver behaviour that the file relies on but does not define. -/
structure Env (D : Type) where
  /-- Case folding used by `QString::compare(_, Qt::CaseInsensitive)`. -/
  foldCase : Char → Char
  /-- The function `QString::number(x, 'f', prec)`: fixed notation with `prec`
  digits after the decimal point. -/
  numberF : D → Nat → String
  /-- The function `QString::toDouble()`. -/
  toDouble : String → D
  /-- The virtual `deviceType()` of each driver class. -/
  deviceType : DriverClass → BluetoothType
  /-- Speed reported by a freshly constructed driver. -/
  speed0 : DriverClass → D
  /-- Inclination reported by a freshly constructed driver. -/
  incl0 : DriverClass → D

/-- The members of `bluetooth` that the functions below read or write. -/
structure Bluetooth (D : Type) where
  filterDevice : String
  domyos : Option (Driver D)
  domyosBike : Option (Driver D)
  toorx : Option (Driver D)
  trxappgateusb : Option (Driver D)
  /-- Whether the discovery agent is scanning. -/
  scanning : Bool
  fs : FileSys
  trace : List Effect

/-! ## String helpers -/

/-- Case-sensitive `QString::startsWith`. -/
def startsWith (s p : String) : Bool :=
  p.data.isPrefixOf s.data

/-- Lexical comparison of folded characters; negative, zero or positive. -/
def compareFolded (fold : Char → Char) : List Char → List Char → Int
  | [], [] => 0
  | [], _ :: _ => -1
  | _ :: _, [] => 1
  | a :: as, b :: bs =>
    if fold a = fold b then compareFolded fold as bs
    else ((fold a).toNat : Int) - ((fold b).toNat : Int)

/-- The call `a.compare(b, Qt::CaseInsensitive)`. -/
def compareCaseInsensitive {D : Type} (env : Env D) (a b : String) : Int :=
  compareFolded env.foldCase a.data b.data

/-- Equality of two names up to case: the folded texts coincide. -/
def equalsIgnoreCase {D : Type} (env : Env D) (a b : String) : Prop :=
  a.data.map env.foldCase = b.data.map env.foldCase

/-! ## Small state updates -/

/-- Append an effect to the log. -/
def Bluetooth.log {D : Type} (b : Bluetooth D) (e : Effect) : Bluetooth D :=
  { b with trace := b.trace ++ [e] }

/-- The call `discoveryAgent->stop()`. -/
def agentStop {D : Type} (b : Bluetooth D) : Bluetooth D :=
  { b with scanning := false, trace := b.trace ++ [Effect.agentStop] }

/-- The call `discoveryAgent->start()`. -/
def agentStart {D : Type} (b : Bluetooth D) : Bluetooth D :=
  { b with scanning := true, trace := b.trace ++ [Effect.agentStart] }

/-- A freshly constructed driver of class `c`. -/
def newDriver {D : Type} (env : Env D) (c : DriverClass) : Driver D :=
  { currentSpeed := env.speed0 c, currentInclination := env.incl0 c, calls := [] }

/-- Record a method call on a driver object. -/
def Driver.call {D : Type} (d : Driver D) (c : DriverCall D) : Driver D :=
  { d with calls := d.calls ++ [c] }

/-! ## `bluetooth::device` -/

/-- The active device: the first non-null pointer in the order domyos,
domyosBike, toorx, trxappgateusb, with its class. -/
def device {D : Type} (b : Bluetooth D) : Option (DriverClass × Driver D) :=
  match b.domyos with
  | some d => some (DriverClass.domyostreadmill, d)
  | none =>
    match b.domyosBike with
    | some d => some (DriverClass.domyosbike, d)
    | none =>
      match b.toorx with
      | some d => some (DriverClass.toorxtreadmill, d)
      | none =>
        match b.trxappgateusb with
        | some d => some (DriverClass.trxappgateusbtreadmill, d)
        | none => none

/-- A method call made through the pointer returned by `device()`: it reaches
the object that `device()` selects, whatever class the pointer was cast to. -/
def callDevice {D : Type} (b : Bluetooth D) (c : DriverCall D) : Bluetooth D :=
  match b.domyos with
  | some d => { b with domyos := some (d.call c) }
  | none =>
    match b.domyosBike with
    | some d => { b with domyosBike := some (d.call c) }
    | none =>
      match b.toorx with
      | some d => { b with toorx := some (d.call c) }
      | none =>
        match b.trxappgateusb with
        | some d => { b with trxappgateusb := some (d.call c) }
        | none => b

/-! ## `bluetooth::stateFileRead` -/

/-- The call `QDomElement::attribute(name, defValue)`. -/
def attributeValue (attrs : List (String × String)) (name defValue : String) : String :=
  (attrs.lookup name).getD defValue

/-- The `while(!machine.isNull())` loop over the children of the root, starting
at `machine`: it ends at the first node that is not an element. -/
def readMachines {D : Type} (env : Env D) : List Node → Bluetooth D → Bluetooth D
  | [], b => b
  | Node.other :: _, b => b
  | Node.element tag attrs :: rest, b =>
    if tag = "Treadmill" then
      let speed := env.toDouble (attributeValue attrs "Speed" "0.0")
      let inclination := env.toDouble (attributeValue attrs "Incline" "0.0")
      let b := callDevice b (DriverCall.setLastSpeed speed)
      let b := callDevice b (DriverCall.setLastInclination inclination)
      readMachines env rest b
    else
      readMachines env rest b

/-- The children of `xmlBOM.documentElement()`; none for the null element. -/
def rootChildren (doc : Doc) : List Node :=
  match doc.root with
  | some r => r.children
  | none => []

/-- The result of `log->open(QIODevice::ReadOnly | QIODevice::Text)` followed by
`xmlBOM.setContent(log)`: the parsed document, when the file opens. -/
def openRead (fs : FileSys) : Option Doc :=
  if fs.readable then fs.statusXml else none

/-- The function `bluetooth::stateFileRead`. -/
def stateFileRead {D : Type} (env : Env D) (b : Bluetooth D) : Bluetooth D :=
  match device b with
  | none => b
  | some _ =>
    match openRead b.fs with
    | none => b
    | some xmlBOM => readMachines env (rootChildren xmlBOM) b

/-! ## `bluetooth::stateFileUpdate` -/

/-- The call `QDomElement::setAttribute(name, value)`. -/
def setAttribute (attrs : List (String × String)) (name value : String) :
    List (String × String) :=
  (name, value) :: attrs.filter (fun p => p.1 ≠ name)

/-- The document built by `stateFileUpdate`: a root `Gym` with one `Treadmill`
child carrying `Speed` and `Incline`, and the attribute `Updated` on the root. -/
def statusDoc {D : Type} (env : Env D) (now : String) (speed inclination : D) : Doc :=
  let docTreadmill :=
    setAttribute (setAttribute [] "Speed" (env.numberF speed 1)) "Incline"
      (env.numberF inclination 1)
  { root := some
      { tag := "Gym"
        attrs := setAttribute [] "Updated" now
        children := [Node.element "Treadmill" docTreadmill] } }

/-- The function `bluetooth::stateFileUpdate`; `now` is
`QDateTime::currentDateTime().toString()`. -/
def stateFileUpdate {D : Type} (env : Env D) (now : String) (b : Bluetooth D) : Bluetooth D :=
  match device b with
  | none => b
  | some (c, d) =>
    if env.deviceType c ≠ BluetoothType.TREADMILL then b
    else if !b.fs.writable then b
    else
      { b with fs := { b.fs with
          statusXml := some (statusDoc env now d.currentSpeed d.currentInclination) } }

/-- The slot `bluetooth::speedChanged`. -/
def speedChanged {D : Type} (env : Env D) (now : String) (_speed : D) (b : Bluetooth D) :
    Bluetooth D :=
  stateFileUpdate env now b

/-- The slot `bluetooth::inclinationChanged`. -/
def inclinationChanged {D : Type} (env : Env D) (now : String) (_inclination : D)
    (b : Bluetooth D) : Bluetooth D :=
  stateFileUpdate env now b

/-! ## `bluetooth::handleSignal` -/

/-- The function `bluetooth::handleSignal`; `sigInt` is the value of
`SIGNALS::SIG_INT`. Returns the new state and the function result. -/
def handleSignal {D : Type} (sigInt : Int) (b : Bluetooth D) (signal : Int) :
    Bluetooth D × Bool :=
  let b := if signal = sigInt then { b with fs := { b.fs with statusXml := none } } else b
  (b, true)

/-! ## `bluetooth::restart` -/

/-- The function `bluetooth::restart`. -/
def restart {D : Type} (b : Bluetooth D) : Bluetooth D :=
  let b := match b.domyos with
    | some _ => { (b.log (Effect.deleted DriverClass.domyostreadmill)) with domyos := none }
    | none => b
  let b := match b.domyosBike with
    | some _ => { (b.log (Effect.deleted DriverClass.domyosbike)) with domyosBike := none }
    | none => b
  let b := match b.toorx with
    | some _ => { (b.log (Effect.deleted DriverClass.toorxtreadmill)) with toorx := none }
    | none => b
  let b := match b.trxappgateusb with
    | some _ =>
      { (b.log (Effect.deleted DriverClass.trxappgateusbtreadmill)) with trxappgateusb := none }
    | none => b
  agentStart b

/-! ## `bluetooth::deviceDiscovered` -/

/-- Body of the first branch: the bike driver. -/
def adoptDomyosBike {D : Type} (env : Env D) (b : Bluetooth D) (dev : DeviceInfo) :
    Bluetooth D :=
  let b := agentStop b
  let b := { (b.log (Effect.created DriverClass.domyosbike)) with
    domyosBike := some (newDriver env DriverClass.domyosbike) }
  let b := b.log Effect.deviceConnected
  let b := b.log (Effect.connected DriverClass.domyosbike "disconnected()" "restart()")
  let b := b.log (Effect.connected DriverClass.domyosbike "debug(QString)" "debug(QString)")
  { b with domyosBike := b.domyosBike.map (fun d => d.call (DriverCall.deviceDiscovered dev)) }

/-- The assignment `domyos = new domyostreadmill(...)`. -/
def newDomyos {D : Type} (env : Env D) (b : Bluetooth D) : Bluetooth D :=
  { (b.log (Effect.created DriverClass.domyostreadmill)) with
    domyos := some (newDriver env DriverClass.domyostreadmill) }

/-- Body of the second branch: the Domyos treadmill driver. -/
def adoptDomyos {D : Type} (env : Env D) (b : Bluetooth D) (dev : DeviceInfo) :
    Bluetooth D :=
  let b := agentStop b
  let b := newDomyos env b
  let b := stateFileRead env b
  let b := b.log Effect.deviceConnected
  let b := b.log (Effect.connected DriverClass.domyostreadmill "disconnected()" "restart()")
  let b := b.log (Effect.connected DriverClass.domyostreadmill "debug(QString)" "debug(QString)")
  let b := b.log
    (Effect.connected DriverClass.domyostreadmill "speedChanged(double)" "speedChanged(double)")
  let b := b.log
    (Effect.connected DriverClass.domyostreadmill "inclinationChanged(double)"
      "inclinationChanged(double)")
  { b with domyos := b.domyos.map (fun d => d.call (DriverCall.deviceDiscovered dev)) }

/-- Body of the third branch: the TRX route key driver. -/
def adoptToorx {D : Type} (env : Env D) (b : Bluetooth D) (dev : DeviceInfo) :
    Bluetooth D :=
  let b := agentStop b
  let b := { (b.log (Effect.created DriverClass.toorxtreadmill)) with
    toorx := some (newDriver env DriverClass.toorxtreadmill) }
  let b := b.log Effect.deviceConnected
  let b := b.log (Effect.connected DriverClass.toorxtreadmill "disconnected()" "restart()")
  let b := b.log (Effect.connected DriverClass.toorxtreadmill "debug(QString)" "debug(QString)")
  { b with toorx := b.toorx.map (fun d => d.call (DriverCall.deviceDiscovered dev)) }

/-- Body of the fourth branch: the TOORX driver. -/
def adoptTrxappgateusb {D : Type} (env : Env D) (b : Bluetooth D) (dev : DeviceInfo) :
    Bluetooth D :=
  let b := agentStop b
  let b := { (b.log (Effect.created DriverClass.trxappgateusbtreadmill)) with
    trxappgateusb := some (newDriver env DriverClass.trxappgateusbtreadmill) }
  let b := b.log Effect.deviceConnected
  let b := b.log
    (Effect.connected DriverClass.trxappgateusbtreadmill "disconnected()" "restart()")
  let b := b.log
    (Effect.connected DriverClass.trxappgateusbtreadmill "debug(QString)" "debug(QString)")
  { b with
    trxappgateusb := b.trxappgateusb.map (fun d => d.call (DriverCall.deviceDiscovered dev)) }

/-- The local `filter` of `deviceDiscovered`. -/
def nameFilter {D : Type} (env : Env D) (b : Bluetooth D) (dev : DeviceInfo) : Bool :=
  if b.filterDevice.length ≠ 0 then decide (compareCaseInsensitive env dev.name b.filterDevice = 0) else true

/-- The function `bluetooth::deviceDiscovered`. -/
def deviceDiscovered {D : Type} (env : Env D) (b : Bluetooth D) (dev : DeviceInfo) :
    Bluetooth D :=
  let b := b.log (Effect.deviceFound dev.name)
  let filter := nameFilter env b dev
  if startsWith dev.name "Domyos-Bike" && !startsWith dev.name "DomyosBridge" && filter then
    adoptDomyosBike env b dev
  else if startsWith dev.name "Domyos" && !startsWith dev.name "DomyosBridge" && filter then
    adoptDomyos env b dev
  else if startsWith dev.name "TRX ROUTE KEY" && filter then
    adoptToorx env b dev
  else if startsWith dev.name "TOORX" && filter then
    adoptTrxappgateusb env b dev
  else
    b

/-! ## The constructor and event sequences -/

/-- The object after the constructor, in the branch where a Bluetooth adapter is
present: all four pointers null, the discovery agent created and started. -/
def init {D : Type} (deviceName : String) (fs : FileSys) : Bluetooth D :=
  { filterDevice := deviceName
    domyos := none, domyosBike := none, toorx := none, trxappgateusb := none
    scanning := true
    fs := fs
    trace := [Effect.agentStart] }

/-- The two events that change the driver pointers. -/
inductive Event
  | deviceDiscovered (dev : DeviceInfo)
  | restart
  deriving DecidableEq, Repr

/-- One event handled by the object. -/
def step {D : Type} (env : Env D) (b : Bluetooth D) : Event → Bluetooth D
  | Event.deviceDiscovered dev => deviceDiscovered env b dev
  | Event.restart => restart b

/-- A finite sequence of events, handled in order. -/
def run {D : Type} (env : Env D) (b : Bluetooth D) (evs : List Event) : Bluetooth D :=
  evs.foldl (step env) b

/-- Whether every `deviceDiscovered` of the sequence is delivered while the
discovery agent is scanning (the agent delivers nothing after `stop()`). -/
def deliverable {D : Type} (env : Env D) : Bluetooth D → List Event → Bool
  | _, [] => true
  | b, Event.restart :: evs => deliverable env (restart b) evs
  | b, Event.deviceDiscovered dev :: evs =>
    b.scanning && deliverable env (deviceDiscovered env b dev) evs

/-- The calls that the loop of `stateFileRead` makes on the active device. -/
def seedCalls {D : Type} (env : Env D) : List Node → List (DriverCall D)
  | [] => []
  | Node.other :: _ => []
  | Node.element tag attrs :: rest =>
    if tag = "Treadmill" then
      DriverCall.setLastSpeed (env.toDouble (attributeValue attrs "Speed" "0.0"))
        :: DriverCall.setLastInclination (env.toDouble (attributeValue attrs "Incline" "0.0"))
        :: seedCalls env rest
    else seedCalls env rest

/-- The calls that `stateFileRead` makes on the active device for a given file
system: none when `status.xml` does not open. -/
def savedSeed {D : Type} (env : Env D) (fs : FileSys) : List (DriverCall D) :=
  match openRead fs with
  | none => []
  | some xmlBOM => seedCalls env (rootChildren xmlBOM)

/-- The driver classes constructed according to an effect log, oldest first. -/
def driversCreated : List Effect → List DriverClass
  | [] => []
  | Effect.created c :: es => c :: driversCreated es
  | _ :: es => driversCreated es

/-- A driver pointer is seed-free when its object, if any, has received no
`setLastSpeed` and no `setLastInclination`. -/
def SeedFree {D : Type} (h : Option (Driver D)) : Prop :=
  ∀ d, h = some d → ∀ c ∈ d.calls, ∃ info, c = DriverCall.deviceDiscovered info

/-! ## A decimal environment

A concrete environment over the rationals, used to evaluate the program on
concrete inputs: numbers are printed in fixed notation and parsed back as
decimal fractions. -/

/-- The decimal digit `d` as a character. -/
def digitChar (d : Nat) : Char := Char.ofNat (48 + d)

/-- The value of a decimal digit character. -/
def digitVal (c : Char) : Nat := c.toNat - 48

/-- Decimal digits of `n`, most significant first, with recursion depth `fuel`. -/
def natDigitsFuel : Nat → Nat → List Char
  | 0, _ => []
  | fuel + 1, n =>
    if n < 10 then [digitChar n]
    else natDigitsFuel fuel (n / 10) ++ [digitChar (n % 10)]

/-- Decimal digits of `n`, most significant first. -/
def natDigits (n : Nat) : List Char := natDigitsFuel (n + 1) n

/-- The last `p` decimal digits of `n`, most significant first. -/
def fracDigits : Nat → Nat → List Char
  | 0, _ => []
  | p + 1, n => fracDigits p (n / 10) ++ [digitChar (n % 10)]

/-- The magnitude of `x` in units of `10 ^ (-prec)`, rounded half away from zero. -/
def scaledRound (x : ℚ) (prec : Nat) : Nat :=
  (2 * x.num.natAbs * 10 ^ prec + x.den) / (2 * x.den)

/-- Fixed notation with `prec` digits after the decimal point. -/
def decimalNumberF (x : ℚ) (prec : Nat) : String :=
  let t := scaledRound x prec
  let body := natDigits (t / 10 ^ prec)
    ++ (if prec = 0 then [] else '.' :: fracDigits prec (t % 10 ^ prec))
  String.mk (if x < 0 then '-' :: body else body)

/-- The number denoted by a list of decimal digits. -/
def digitsValue (cs : List Char) : Nat :=
  cs.foldl (fun acc c => 10 * acc + digitVal c) 0

/-- An unsigned decimal fraction: digits, optionally a point and more digits. -/
def parseDecimal (cs : List Char) : Option ℚ :=
  let ip := cs.takeWhile Char.isDigit
  match cs.dropWhile Char.isDigit with
  | [] => if ip = [] then none else some (digitsValue ip : ℚ)
  | c :: fs =>
    if c = '.' ∧ fs.all Char.isDigit = true ∧ (ip ≠ [] ∨ fs ≠ []) then
      some ((digitsValue ip : ℚ) + (digitsValue fs : ℚ) / (10 : ℚ) ^ fs.length)
    else none

/-- A signed decimal fraction; any other text converts to 0, as `toDouble`
does when the conversion fails. -/
def decimalToDouble (s : String) : ℚ :=
  match s.data with
  | [] => 0
  | c :: cs =>
    if c = '-' then -((parseDecimal cs).getD 0)
    else if c = '+' then (parseDecimal cs).getD 0
    else (parseDecimal (c :: cs)).getD 0

/-- Modelled from the spec: the device kind of each driver class (the driver
classes are not among the sources). The bike rule yields Bike, the three
treadmill rules yield Treadmill. -/
def specDeviceType : DriverClass → BluetoothType
  | DriverClass.domyosbike => BluetoothType.BIKE
  | _ => BluetoothType.TREADMILL

/-- The decimal environment: ASCII case folding, decimal conversions, device
kinds as in the spec, and drivers that report 0 when constructed. -/
def decimalEnv : Env ℚ :=
  { foldCase := Char.toLower
    numberF := decimalNumberF
    toDouble := decimalToDouble
    deviceType := specDeviceType
    speed0 := fun _ => 0
    incl0 := fun _ => 0 }

/-- A file system without `status.xml`. -/
def fsEmpty : FileSys :=
  { statusXml := none, readable := true, writable := true }

/-- A saved record with Speed 12.5 and Incline 3.0. -/
def savedDoc : Doc :=
  { root := some
      { tag := "Gym"
        attrs := [("Updated", "Fri Oct 30 12:00:00 2026")]
        children := [Node.element "Treadmill" [("Incline", "3.0"), ("Speed", "12.5")]] } }

/-- A file system whose `status.xml` holds `savedDoc`. -/
def fsSaved : FileSys :=
  { statusXml := some savedDoc, readable := true, writable := true }

/-- A session with an active Domyos treadmill running at 12.34 with inclination 3. -/
def runningTreadmill : Bluetooth ℚ :=
  { filterDevice := ""
    domyos := some { currentSpeed := 1234 / 100, currentInclination := 3, calls := [] }
    domyosBike := none, toorx := none, trxappgateusb := none
    scanning := false
    fs := fsEmpty
    trace := [] }

/-- A session with an active Domyos bike. -/
def runningBike : Bluetooth ℚ :=
  { filterDevice := ""
    domyos := none
    domyosBike := some { currentSpeed := 20, currentInclination := 0, calls := [] }
    toorx := none, trxappgateusb := none
    scanning := false
    fs := fsSaved
    trace := [] }

/-- Number of non-null driver pointers. -/
def liveHandles {D : Type} (b : Bluetooth D) : Nat :=
  (if b.domyos.isSome then 1 else 0) + (if b.domyosBike.isSome then 1 else 0)
    + (if b.toorx.isSome then 1 else 0) + (if b.trxappgateusb.isSome then 1 else 0)

end QZ

namespace QZ

/-! ## Strings -/

theorem compareFolded_eq_zero_iff (fold : Char → Char) (a b : List Char) :
    compareFolded fold a b = 0 ↔ a.map fold = b.map fold := by
  induction a generalizing b with
  | nil => cases b <;> simp [compareFolded]
  | cons x xs ih =>
    cases b with
    | nil => simp [compareFolded]
    | cons y ys =>
      by_cases h : fold x = fold y
      · simp [compareFolded, h, ih]
      · have hn : ((fold x).toNat : Int) - ((fold y).toNat : Int) ≠ 0 := by
          intro h0
          apply h
          have h1 : (fold x).toNat = (fold y).toNat := by omega
          rw [← Char.ofNat_toNat (fold x), ← Char.ofNat_toNat (fold y), h1]
        simp [compareFolded, h, hn]

theorem compare_eq_zero_iff {D : Type} (env : Env D) (a b : String) :
    compareCaseInsensitive env a b = 0 ↔ equalsIgnoreCase env a b :=
  compareFolded_eq_zero_iff env.foldCase a.data b.data

theorem length_ne_zero_of_ne_empty (s : String) (h : s ≠ "") : s.length ≠ 0 := by
  intro h0
  apply h
  cases s with
  | mk l =>
    have : l = [] := List.length_eq_zero.mp h0
    subst this
    rfl

theorem startsWith_iff (s p : String) :
    startsWith s p = true ↔ ∃ t, s.data = p.data ++ t := by
  unfold startsWith
  rw [List.isPrefixOf_iff_prefix]
  constructor
  · rintro ⟨t, ht⟩
    exact ⟨t, ht.symm⟩
  · rintro ⟨t, ht⟩
    exact ⟨t, ht.symm⟩

/-! ## Prefix rules -/

theorem bridge_not_bike (s : String) (h : startsWith s "DomyosBridge" = true) :
    startsWith s "Domyos-Bike" = false := by
  obtain ⟨t, ht⟩ := (startsWith_iff _ _).mp h
  unfold startsWith
  rw [ht]
  rfl

theorem bridge_not_routeKey (s : String) (h : startsWith s "DomyosBridge" = true) :
    startsWith s "TRX ROUTE KEY" = false := by
  obtain ⟨t, ht⟩ := (startsWith_iff _ _).mp h
  unfold startsWith
  rw [ht]
  rfl

theorem bridge_not_toorx (s : String) (h : startsWith s "DomyosBridge" = true) :
    startsWith s "TOORX" = false := by
  obtain ⟨t, ht⟩ := (startsWith_iff _ _).mp h
  unfold startsWith
  rw [ht]
  rfl

theorem bike_not_bridge (s : String) (h : startsWith s "Domyos-Bike" = true) :
    startsWith s "DomyosBridge" = false := by
  obtain ⟨t, ht⟩ := (startsWith_iff _ _).mp h
  unfold startsWith
  rw [ht]
  rfl

/-! ## Effect logs -/

theorem driversCreated_append (xs ys : List Effect) :
    driversCreated (xs ++ ys) = driversCreated xs ++ driversCreated ys := by
  induction xs with
  | nil => rfl
  | cons e es ih => cases e <;> simp [driversCreated, ih]

/-! ## `stateFileRead` on a state whose `domyos` pointer is set -/

theorem callDevice_domyos {D : Type} (b : Bluetooth D) (d : Driver D) (c : DriverCall D)
    (h : b.domyos = some d) :
    callDevice b c = { b with domyos := some { d with calls := d.calls ++ [c] } } := by
  simp [callDevice, h, Driver.call]

theorem readMachines_domyos {D : Type} (env : Env D) (nodes : List Node) :
    ∀ (b : Bluetooth D) (d : Driver D), b.domyos = some d →
      readMachines env nodes b
        = { b with domyos := some { d with calls := d.calls ++ seedCalls env nodes } } := by
  induction nodes with
  | nil =>
    intro b d h
    obtain ⟨f, dm, db, tx, tr, sc, fs, lg⟩ := b
    simp only at h
    subst h
    simp [readMachines, seedCalls]
  | cons n rest ih =>
    intro b d h
    cases n with
    | other =>
      obtain ⟨f, dm, db, tx, tr, sc, fs, lg⟩ := b
      simp only at h
      subst h
      simp [readMachines, seedCalls]
    | element tag attrs =>
      by_cases ht : tag = "Treadmill"
      · simp only [readMachines, seedCalls, ht, if_true]
        rw [callDevice_domyos b d _ h]
        rw [callDevice_domyos _ _ _ rfl]
        rw [ih _ _ rfl]
        simp
      · simp only [readMachines, seedCalls, ht, if_false]
        exact ih b d h

theorem stateFileRead_domyos {D : Type} (env : Env D) (b : Bluetooth D) (d : Driver D)
    (h : b.domyos = some d) :
    stateFileRead env b
      = { b with domyos := some { d with calls := d.calls ++ savedSeed env b.fs } } := by
  have hd : device b = some (DriverClass.domyostreadmill, d) := by simp [device, h]
  unfold stateFileRead savedSeed
  rw [hd]
  cases ho : openRead b.fs with
  | none =>
    obtain ⟨f, dm, db, tx, tr, sc, fs, lg⟩ := b
    simp only at h
    subst h
    simp
  | some doc =>
    simp only
    exact readMachines_domyos env _ b d h

theorem adoptDomyos_eq {D : Type} (env : Env D) (b : Bluetooth D) (dev : DeviceInfo) :
    adoptDomyos env b dev =
      { b with
        scanning := false
        domyos := some
          { newDriver env DriverClass.domyostreadmill with
            calls := savedSeed env b.fs ++ [DriverCall.deviceDiscovered dev] }
        trace := b.trace ++
          [ Effect.agentStop, Effect.created DriverClass.domyostreadmill, Effect.deviceConnected,
            Effect.connected DriverClass.domyostreadmill "disconnected()" "restart()",
            Effect.connected DriverClass.domyostreadmill "debug(QString)" "debug(QString)",
            Effect.connected DriverClass.domyostreadmill "speedChanged(double)"
              "speedChanged(double)",
            Effect.connected DriverClass.domyostreadmill "inclinationChanged(double)"
              "inclinationChanged(double)" ] } := by
  unfold adoptDomyos
  simp only
  rw [stateFileRead_domyos env (newDomyos env (agentStop b))
    (newDriver env DriverClass.domyostreadmill) rfl]
  simp [newDomyos, agentStop, Bluetooth.log, newDriver, Driver.call]

/-! ## Classification in `deviceDiscovered` -/

theorem nameFilter_false_of_mismatch {D : Type} (env : Env D) (b : Bluetooth D)
    (dev : DeviceInfo) (e : Effect) (hF : b.filterDevice ≠ "")
    (hne : ¬ equalsIgnoreCase env dev.name b.filterDevice) :
    nameFilter env (b.log e) dev = false := by
  have hl : b.filterDevice.length ≠ 0 := length_ne_zero_of_ne_empty _ hF
  have hc : compareCaseInsensitive env dev.name b.filterDevice ≠ 0 :=
    fun h => hne ((compare_eq_zero_iff env _ _).mp h)
  simp [nameFilter, Bluetooth.log, hl, hc]

theorem nameFilter_true_of_no_filter {D : Type} (env : Env D) (b : Bluetooth D)
    (dev : DeviceInfo) (e : Effect) (hF : b.filterDevice = "") :
    nameFilter env (b.log e) dev = true := by
  simp [nameFilter, Bluetooth.log, hF]

/-- C1. With a non-empty filter name configured, a discovered name that does
not equal the filter up to case is only announced by `deviceFound`: no driver
pointer changes, no driver is constructed, the discovery agent is not stopped,
whatever vendor rule the name would satisfy. -/
theorem filter_mismatch_creates_nothing {D : Type} (env : Env D) (b : Bluetooth D)
    (dev : DeviceInfo) (hF : b.filterDevice ≠ "")
    (hne : ¬ equalsIgnoreCase env dev.name b.filterDevice) :
    deviceDiscovered env b dev = b.log (Effect.deviceFound dev.name)
      ∧ (deviceDiscovered env b dev).domyos = b.domyos
      ∧ (deviceDiscovered env b dev).domyosBike = b.domyosBike
      ∧ (deviceDiscovered env b dev).toorx = b.toorx
      ∧ (deviceDiscovered env b dev).trxappgateusb = b.trxappgateusb
      ∧ (deviceDiscovered env b dev).scanning = b.scanning
      ∧ (deviceDiscovered env b dev).trace = b.trace ++ [Effect.deviceFound dev.name] := by
  have h : deviceDiscovered env b dev = b.log (Effect.deviceFound dev.name) := by
    unfold deviceDiscovered
    simp [nameFilter_false_of_mismatch env b dev _ hF hne]
  rw [h]
  simp [Bluetooth.log]

/-- C4. A discovered name that starts with "DomyosBridge" matches no rule,
for every filter setting: the call only logs `deviceFound`; no driver pointer
changes, the discovery agent is not stopped and `deviceConnected` is not
emitted. -/
theorem bridge_name_creates_nothing {D : Type} (env : Env D) (b : Bluetooth D)
    (dev : DeviceInfo) (hB : startsWith dev.name "DomyosBridge" = true) :
    deviceDiscovered env b dev = b.log (Effect.deviceFound dev.name)
      ∧ (deviceDiscovered env b dev).domyos = b.domyos
      ∧ (deviceDiscovered env b dev).domyosBike = b.domyosBike
      ∧ (deviceDiscovered env b dev).toorx = b.toorx
      ∧ (deviceDiscovered env b dev).trxappgateusb = b.trxappgateusb
      ∧ (deviceDiscovered env b dev).scanning = b.scanning
      ∧ (deviceDiscovered env b dev).trace = b.trace ++ [Effect.deviceFound dev.name] := by
  have h : deviceDiscovered env b dev = b.log (Effect.deviceFound dev.name) := by
    unfold deviceDiscovered
    simp [hB, bridge_not_routeKey _ hB, bridge_not_toorx _ hB]
  rw [h]
  simp [Bluetooth.log]

/-- C5. With no filter configured: a name that starts with "Domyos" and with
neither "Domyos-Bike" nor "DomyosBridge" constructs the domyos treadmill driver
and no other driver; a name that starts with "Domyos-Bike" constructs the bike
driver only, the earlier rule taking precedence over the treadmill rule. -/
theorem domyos_prefix_rules {D : Type} (env : Env D) (b : Bluetooth D) (dev : DeviceInfo)
    (hF : b.filterDevice = "") :
    (startsWith dev.name "Domyos" = true → startsWith dev.name "Domyos-Bike" = false →
      startsWith dev.name "DomyosBridge" = false →
        driversCreated (deviceDiscovered env b dev).trace
            = driversCreated b.trace ++ [DriverClass.domyostreadmill]
          ∧ (deviceDiscovered env b dev).domyos = some
              { newDriver env DriverClass.domyostreadmill with
                calls := savedSeed env b.fs ++ [DriverCall.deviceDiscovered dev] }
          ∧ (deviceDiscovered env b dev).domyosBike = b.domyosBike
          ∧ (deviceDiscovered env b dev).toorx = b.toorx
          ∧ (deviceDiscovered env b dev).trxappgateusb = b.trxappgateusb)
    ∧ (startsWith dev.name "Domyos-Bike" = true →
        startsWith dev.name "Domyos" = true
          ∧ driversCreated (deviceDiscovered env b dev).trace
            = driversCreated b.trace ++ [DriverClass.domyosbike]
          ∧ (deviceDiscovered env b dev).domyosBike = some
              { newDriver env DriverClass.domyosbike with
                calls := [DriverCall.deviceDiscovered dev] }
          ∧ (deviceDiscovered env b dev).domyos = b.domyos
          ∧ (deviceDiscovered env b dev).toorx = b.toorx
          ∧ (deviceDiscovered env b dev).trxappgateusb = b.trxappgateusb) := by
  have hflt := nameFilter_true_of_no_filter env b dev (Effect.deviceFound dev.name) hF
  constructor
  · intro h1 h2 h3
    have h : deviceDiscovered env b dev
        = adoptDomyos env (b.log (Effect.deviceFound dev.name)) dev := by
      unfold deviceDiscovered
      simp [h1, h2, h3, hflt]
    rw [h, adoptDomyos_eq]
    simp [Bluetooth.log, driversCreated_append, driversCreated]
  · intro h1
    have h3 := bike_not_bridge _ h1
    have h : deviceDiscovered env b dev
        = adoptDomyosBike env (b.log (Effect.deviceFound dev.name)) dev := by
      unfold deviceDiscovered
      simp [h1, h3, hflt]
    rw [h]
    refine ⟨?_, ?_⟩
    · obtain ⟨t, ht⟩ := (startsWith_iff _ _).mp h1
      unfold startsWith
      rw [ht]
      rfl
    · simp [adoptDomyosBike, agentStop, Bluetooth.log, driversCreated_append, driversCreated,
        newDriver, Driver.call]

/-! ## `restart`, `handleSignal`, `stateFileUpdate` -/

/-- C3. From every state, `restart` deletes every driver whose pointer is
non-null (the active device returned by `device()` among them) and nothing
else, leaves the four driver pointers null, so `device()` returns no device,
and then calls `start()` on the discovery agent exactly once, after which the
agent is scanning. The effects logged are exactly one `delete` per non-null
pointer, in the order domyos, domyosBike, toorx, trxappgateusb, followed by the
`start()`; the filter and the file are untouched. -/
theorem restart_releases_and_rescans {D : Type} (b : Bluetooth D) :
    (restart b).domyos = none ∧ (restart b).domyosBike = none
      ∧ (restart b).toorx = none ∧ (restart b).trxappgateusb = none
      ∧ device (restart b) = none
      ∧ (restart b).scanning = true
      ∧ (restart b).trace.count Effect.agentStart = b.trace.count Effect.agentStart + 1
      ∧ (restart b).trace.getLast? = some Effect.agentStart
      ∧ (restart b).trace = b.trace
          ++ (if b.domyos.isSome then [Effect.deleted DriverClass.domyostreadmill] else [])
          ++ (if b.domyosBike.isSome then [Effect.deleted DriverClass.domyosbike] else [])
          ++ (if b.toorx.isSome then [Effect.deleted DriverClass.toorxtreadmill] else [])
          ++ (if b.trxappgateusb.isSome then [Effect.deleted DriverClass.trxappgateusbtreadmill]
              else [])
          ++ [Effect.agentStart]
      ∧ (∀ c d, device b = some (c, d) →
          (restart b).trace.count (Effect.deleted c) = b.trace.count (Effect.deleted c) + 1)
      ∧ (∀ c, (restart b).trace.count (Effect.deleted c) ≤ b.trace.count (Effect.deleted c) + 1)
      ∧ (restart b).filterDevice = b.filterDevice
      ∧ (restart b).fs = b.fs := by
  obtain ⟨f, dm, db, tx, tr, sc, fs, lg⟩ := b
  refine ⟨?_, ?_, ?_, ?_, ?_, ?_, ?_, ?_, ?_, ?_, ?_, ?_, ?_⟩
  · cases dm <;> cases db <;> cases tx <;> cases tr <;>
      simp [restart, agentStart, Bluetooth.log]
  · cases dm <;> cases db <;> cases tx <;> cases tr <;>
      simp [restart, agentStart, Bluetooth.log]
  · cases dm <;> cases db <;> cases tx <;> cases tr <;>
      simp [restart, agentStart, Bluetooth.log]
  · cases dm <;> cases db <;> cases tx <;> cases tr <;>
      simp [restart, agentStart, Bluetooth.log]
  · cases dm <;> cases db <;> cases tx <;> cases tr <;>
      simp [restart, agentStart, Bluetooth.log, device]
  · cases dm <;> cases db <;> cases tx <;> cases tr <;>
      simp [restart, agentStart, Bluetooth.log]
  · cases dm <;> cases db <;> cases tx <;> cases tr <;>
      simp [restart, agentStart, Bluetooth.log, List.count_append, List.count_cons]
  · cases dm <;> cases db <;> cases tx <;> cases tr <;>
      simp [restart, agentStart, Bluetooth.log]
  · cases dm <;> cases db <;> cases tx <;> cases tr <;>
      simp [restart, agentStart, Bluetooth.log]
  · intro c d h
    cases dm <;> cases db <;> cases tx <;> cases tr <;>
      simp [device] at h <;> obtain ⟨hc, _⟩ := h <;> subst hc <;>
      simp [restart, agentStart, Bluetooth.log, List.count_append, List.count_cons]
  · intro c
    cases dm <;> cases db <;> cases tx <;> cases tr <;> cases c <;>
      simp [restart, agentStart, Bluetooth.log, List.count_append, List.count_cons]
  · cases dm <;> cases db <;> cases tx <;> cases tr <;>
      simp [restart, agentStart, Bluetooth.log]
  · cases dm <;> cases db <;> cases tx <;> cases tr <;>
      simp [restart, agentStart, Bluetooth.log]

/-- C8. For every signal value `handleSignal` returns true and leaves the
driver pointers as they were; on the interrupt signal `status.xml` is absent
afterwards, whether or not it existed; on any other signal the whole state,
the file included, is unchanged. -/
theorem handleSignal_propagates_and_clears {D : Type} (sigInt : Int) (b : Bluetooth D)
    (signal : Int) :
    (handleSignal sigInt b signal).2 = true
      ∧ (signal = sigInt → (handleSignal sigInt b signal).1.fs.statusXml = none)
      ∧ (signal ≠ sigInt → (handleSignal sigInt b signal).1 = b)
      ∧ (handleSignal sigInt b signal).1.domyos = b.domyos
      ∧ (handleSignal sigInt b signal).1.domyosBike = b.domyosBike
      ∧ (handleSignal sigInt b signal).1.toorx = b.toorx
      ∧ (handleSignal sigInt b signal).1.trxappgateusb = b.trxappgateusb := by
  by_cases h : signal = sigInt <;> simp [handleSignal, h]

theorem attributeValue_speed (s i d : String) :
    attributeValue (setAttribute (setAttribute [] "Speed" s) "Incline" i) "Speed" d = s := by
  simp [attributeValue, setAttribute, List.lookup]

theorem attributeValue_incline (s i d : String) :
    attributeValue (setAttribute (setAttribute [] "Speed" s) "Incline" i) "Incline" d = i := by
  simp [attributeValue, setAttribute, List.lookup]

/-- C7. The slots `speedChanged` and `inclinationChanged` run `stateFileUpdate`.
When `device()` is null, or the active device is not of type TREADMILL, the
state (the file included) is left exactly as it was. When the active device is
a TREADMILL and the file opens for writing, the file afterwards is a `Gym`
document whose single `Treadmill` child has `Speed` and `Incline` equal to the
driver's current speed and inclination, formatted by `number(_, 'f', 1)`. -/
theorem stateFileUpdate_writes_only_for_treadmill {D : Type} (env : Env D) (now : String)
    (b : Bluetooth D) :
    (∀ v, speedChanged env now v b = stateFileUpdate env now b)
      ∧ (∀ v, inclinationChanged env now v b = stateFileUpdate env now b)
      ∧ (device b = none → stateFileUpdate env now b = b)
      ∧ (∀ c d, device b = some (c, d) → env.deviceType c ≠ BluetoothType.TREADMILL →
          stateFileUpdate env now b = b)
      ∧ (∀ c d, device b = some (c, d) → env.deviceType c = BluetoothType.TREADMILL →
          b.fs.writable = true →
          ∃ attrs,
            (stateFileUpdate env now b).fs.statusXml = some
              { root := some
                  { tag := "Gym", attrs := [("Updated", now)]
                    children := [Node.element "Treadmill" attrs] } }
            ∧ attributeValue attrs "Speed" "0.0" = env.numberF d.currentSpeed 1
            ∧ attributeValue attrs "Incline" "0.0" = env.numberF d.currentInclination 1) := by
  refine ⟨fun _ => rfl, fun _ => rfl, ?_, ?_, ?_⟩
  · intro h
    simp [stateFileUpdate, h]
  · intro c d h ht
    simp [stateFileUpdate, h, ht]
  · intro c d h ht hw
    refine ⟨_, ?_, attributeValue_speed _ _ _, attributeValue_incline _ _ _⟩
    simp [stateFileUpdate, h, ht, hw, statusDoc, setAttribute]

/-! ## Event sequences -/

theorem deviceDiscovered_cases {D : Type} (env : Env D) (b : Bluetooth D) (dev : DeviceInfo) :
    deviceDiscovered env b dev = b.log (Effect.deviceFound dev.name)
      ∨ deviceDiscovered env b dev = adoptDomyosBike env (b.log (Effect.deviceFound dev.name)) dev
      ∨ deviceDiscovered env b dev = adoptDomyos env (b.log (Effect.deviceFound dev.name)) dev
      ∨ deviceDiscovered env b dev = adoptToorx env (b.log (Effect.deviceFound dev.name)) dev
      ∨ deviceDiscovered env b dev
          = adoptTrxappgateusb env (b.log (Effect.deviceFound dev.name)) dev := by
  unfold deviceDiscovered
  simp only
  split_ifs <;> simp

theorem handles_null_of_liveHandles_zero {D : Type} (b : Bluetooth D) (h : liveHandles b = 0) :
    b.domyos = none ∧ b.domyosBike = none ∧ b.toorx = none ∧ b.trxappgateusb = none := by
  obtain ⟨f, dm, db, tx, tr, sc, fs, lg⟩ := b
  cases dm <;> cases db <;> cases tx <;> cases tr <;> simp [liveHandles] at h ⊢

theorem liveHandles_restart {D : Type} (b : Bluetooth D) :
    liveHandles (restart b) = 0 ∧ (restart b).scanning = true := by
  obtain ⟨f, dm, db, tx, tr, sc, fs, lg⟩ := b
  cases dm <;> cases db <;> cases tx <;> cases tr <;>
    simp [restart, agentStart, Bluetooth.log, liveHandles]

theorem deviceDiscovered_from_idle {D : Type} (env : Env D) (b : Bluetooth D)
    (dev : DeviceInfo) (h0 : liveHandles b = 0) :
    ((deviceDiscovered env b dev).scanning = b.scanning
        ∧ liveHandles (deviceDiscovered env b dev) = 0)
      ∨ ((deviceDiscovered env b dev).scanning = false
        ∧ liveHandles (deviceDiscovered env b dev) = 1) := by
  obtain ⟨h1, h2, h3, h4⟩ := handles_null_of_liveHandles_zero b h0
  rcases deviceDiscovered_cases env b dev with h | h | h | h | h
  · left
    rw [h]
    simp [Bluetooth.log, liveHandles, h1, h2, h3, h4]
  · right
    rw [h]
    simp [adoptDomyosBike, agentStop, Bluetooth.log, liveHandles, h1, h3, h4]
  · right
    rw [h, adoptDomyos_eq]
    simp [Bluetooth.log, liveHandles, h2, h3, h4]
  · right
    rw [h]
    simp [adoptToorx, agentStop, Bluetooth.log, liveHandles, h1, h2, h4]
  · right
    rw [h]
    simp [adoptTrxappgateusb, agentStop, Bluetooth.log, liveHandles, h1, h2, h3]

theorem run_cons {D : Type} (env : Env D) (b : Bluetooth D) (e : Event) (evs : List Event) :
    run env b (e :: evs) = run env (step env b e) evs := rfl

theorem gated_run_invariant {D : Type} (env : Env D) (evs : List Event) :
    ∀ b : Bluetooth D, liveHandles b ≤ 1 → (b.scanning = true → liveHandles b = 0) →
      deliverable env b evs = true →
        (liveHandles (run env b evs) ≤ 1
          ∧ ((run env b evs).scanning = true → liveHandles (run env b evs) = 0))
        ∧ ∀ pre dev post, evs = pre ++ Event.deviceDiscovered dev :: post →
            liveHandles (run env b pre) = 0 := by
  induction evs with
  | nil =>
    intro b h1 h2 _
    refine ⟨⟨h1, h2⟩, ?_⟩
    intro pre dev post h
    cases pre <;> simp at h
  | cons e evs ih =>
    intro b h1 h2 hd
    cases e with
    | restart =>
      have hr := liveHandles_restart b
      have hd2 : deliverable env (restart b) evs = true := by simpa [deliverable] using hd
      obtain ⟨hA, hB⟩ := ih (restart b) (by omega) (fun _ => hr.1) hd2
      refine ⟨hA, ?_⟩
      intro pre dev post h
      cases pre with
      | nil => simp at h
      | cons p pre2 =>
        simp only [List.cons_append, List.cons.injEq] at h
        obtain ⟨hp, hrest⟩ := h
        subst hp
        exact hB pre2 dev post hrest
    | deviceDiscovered dv =>
      have hd1 : b.scanning = true ∧ deliverable env (deviceDiscovered env b dv) evs = true := by
        simpa [deliverable] using hd
      have h0 : liveHandles b = 0 := h2 hd1.1
      have hstep := deviceDiscovered_from_idle env b dv h0
      have hA1 : liveHandles (deviceDiscovered env b dv) ≤ 1 := by
        rcases hstep with h | h <;> omega
      have hA2 : (deviceDiscovered env b dv).scanning = true →
          liveHandles (deviceDiscovered env b dv) = 0 := by
        intro hs
        rcases hstep with h | h
        · exact h.2
        · rw [h.1] at hs
          cases hs
      obtain ⟨hA, hB⟩ := ih (deviceDiscovered env b dv) hA1 hA2 hd1.2
      refine ⟨hA, ?_⟩
      intro pre dev post h
      cases pre with
      | nil => exact h0
      | cons p pre2 =>
        simp only [List.cons_append, List.cons.injEq] at h
        obtain ⟨hp, hrest⟩ := h
        subst hp
        exact hB pre2 dev post hrest

/-- C2, amended. From the initial state, along every finite sequence of
`deviceDiscovered` and `restart` events in which each `deviceDiscovered` is
delivered while the discovery agent is scanning, at most one of the four driver
pointers is non-null, and whenever a `deviceDiscovered` is handled all four
pointers are null, so a driver is never assigned while another is alive. -/
theorem at_most_one_handle_while_scan_gated {D : Type} (env : Env D) (deviceName : String)
    (fs : FileSys) (evs : List Event)
    (h : deliverable env (init deviceName fs : Bluetooth D) evs = true) :
    liveHandles (run env (init deviceName fs : Bluetooth D) evs) ≤ 1
      ∧ ∀ pre dev post, evs = pre ++ Event.deviceDiscovered dev :: post →
          liveHandles (run env (init deviceName fs : Bluetooth D) pre) = 0 := by
  have h0 : liveHandles (init deviceName fs : Bluetooth D) = 0 := by simp [liveHandles, init]
  obtain ⟨hA, hB⟩ := gated_run_invariant env evs (init deviceName fs) (by omega)
    (fun _ => h0) h
  exact ⟨hA.1, hB⟩

/-! ## Where the saved state is replayed -/

theorem seedFree_none {D : Type} : SeedFree (none : Option (Driver D)) := by
  intro d h
  cases h

theorem seedFree_fresh {D : Type} (d : Driver D) (dev : DeviceInfo)
    (h : d.calls = [DriverCall.deviceDiscovered dev]) : SeedFree (some d) := by
  intro d2 h2 c hc
  cases h2
  rw [h] at hc
  simp at hc
  exact ⟨dev, hc⟩

theorem restart_handles {D : Type} (b : Bluetooth D) :
    (restart b).domyos = none ∧ (restart b).domyosBike = none
      ∧ (restart b).toorx = none ∧ (restart b).trxappgateusb = none := by
  obtain ⟨f, dm, db, tx, tr, sc, fs, lg⟩ := b
  cases dm <;> cases db <;> cases tx <;> cases tr <;>
    simp [restart, agentStart, Bluetooth.log]

theorem adoptDomyosBike_handles {D : Type} (env : Env D) (b : Bluetooth D) (dev : DeviceInfo) :
    (adoptDomyosBike env b dev).domyosBike = some
        { newDriver env DriverClass.domyosbike with calls := [DriverCall.deviceDiscovered dev] }
      ∧ (adoptDomyosBike env b dev).domyos = b.domyos
      ∧ (adoptDomyosBike env b dev).toorx = b.toorx
      ∧ (adoptDomyosBike env b dev).trxappgateusb = b.trxappgateusb := by
  simp [adoptDomyosBike, agentStop, Bluetooth.log, newDriver, Driver.call]

theorem adoptToorx_handles {D : Type} (env : Env D) (b : Bluetooth D) (dev : DeviceInfo) :
    (adoptToorx env b dev).toorx = some
        { newDriver env DriverClass.toorxtreadmill with
          calls := [DriverCall.deviceDiscovered dev] }
      ∧ (adoptToorx env b dev).domyos = b.domyos
      ∧ (adoptToorx env b dev).domyosBike = b.domyosBike
      ∧ (adoptToorx env b dev).trxappgateusb = b.trxappgateusb := by
  simp [adoptToorx, agentStop, Bluetooth.log, newDriver, Driver.call]

theorem adoptTrxappgateusb_handles {D : Type} (env : Env D) (b : Bluetooth D)
    (dev : DeviceInfo) :
    (adoptTrxappgateusb env b dev).trxappgateusb = some
        { newDriver env DriverClass.trxappgateusbtreadmill with
          calls := [DriverCall.deviceDiscovered dev] }
      ∧ (adoptTrxappgateusb env b dev).domyos = b.domyos
      ∧ (adoptTrxappgateusb env b dev).domyosBike = b.domyosBike
      ∧ (adoptTrxappgateusb env b dev).toorx = b.toorx := by
  simp [adoptTrxappgateusb, agentStop, Bluetooth.log, newDriver, Driver.call]

theorem deviceDiscovered_seedFree {D : Type} (env : Env D) (b : Bluetooth D) (dev : DeviceInfo)
    (h : SeedFree b.domyosBike ∧ SeedFree b.toorx ∧ SeedFree b.trxappgateusb) :
    SeedFree (deviceDiscovered env b dev).domyosBike
      ∧ SeedFree (deviceDiscovered env b dev).toorx
      ∧ SeedFree (deviceDiscovered env b dev).trxappgateusb := by
  obtain ⟨h1, h2, h3⟩ := h
  rcases deviceDiscovered_cases env b dev with e | e | e | e | e
  · rw [e]
    exact ⟨h1, h2, h3⟩
  · obtain ⟨a1, _, a3, a4⟩ := adoptDomyosBike_handles env (b.log (Effect.deviceFound dev.name)) dev
    rw [e, a1, a3, a4]
    exact ⟨seedFree_fresh _ dev rfl, h2, h3⟩
  · rw [e, adoptDomyos_eq]
    exact ⟨h1, h2, h3⟩
  · obtain ⟨a1, _, a3, a4⟩ := adoptToorx_handles env (b.log (Effect.deviceFound dev.name)) dev
    rw [e, a1, a3, a4]
    exact ⟨h1, seedFree_fresh _ dev rfl, h3⟩
  · obtain ⟨a1, _, a3, a4⟩ :=
      adoptTrxappgateusb_handles env (b.log (Effect.deviceFound dev.name)) dev
    rw [e, a1, a3, a4]
    exact ⟨h1, h2, seedFree_fresh _ dev rfl⟩

theorem run_seedFree {D : Type} (env : Env D) (evs : List Event) :
    ∀ b : Bluetooth D, SeedFree b.domyosBike ∧ SeedFree b.toorx ∧ SeedFree b.trxappgateusb →
      SeedFree (run env b evs).domyosBike ∧ SeedFree (run env b evs).toorx
        ∧ SeedFree (run env b evs).trxappgateusb := by
  induction evs with
  | nil => intro b h; exact h
  | cons e evs ih =>
    intro b h
    rw [run_cons]
    apply ih
    cases e with
    | restart =>
      obtain ⟨_, r2, r3, r4⟩ := restart_handles b
      simp only [step, r2, r3, r4]
      exact ⟨seedFree_none, seedFree_none, seedFree_none⟩
    | deviceDiscovered dv => exact deviceDiscovered_seedFree env b dv h

/-- C10. In every state reached from the initial state by any sequence of
`deviceDiscovered` and `restart` events, and for every descriptor: at the point
where `deviceDiscovered` calls `stateFileRead` (right after the assignment to
`domyos`), `device()` returns the domyos treadmill just constructed; the call
leaves the bike, TRX route key and TOORX pointers as they were; and no bike,
TRX route key or TOORX driver has ever received `setLastSpeed` or
`setLastInclination`. -/
theorem downcast_reaches_only_domyos {D : Type} (env : Env D) (deviceName : String)
    (fs : FileSys) (evs : List Event) (dev : DeviceInfo) :
    device (newDomyos env (agentStop
        ((run env (init deviceName fs : Bluetooth D) evs).log (Effect.deviceFound dev.name))))
        = some (DriverClass.domyostreadmill, newDriver env DriverClass.domyostreadmill)
      ∧ (stateFileRead env (newDomyos env (agentStop
          ((run env (init deviceName fs : Bluetooth D) evs).log
            (Effect.deviceFound dev.name))))).domyosBike
          = (run env (init deviceName fs : Bluetooth D) evs).domyosBike
      ∧ (stateFileRead env (newDomyos env (agentStop
          ((run env (init deviceName fs : Bluetooth D) evs).log
            (Effect.deviceFound dev.name))))).toorx
          = (run env (init deviceName fs : Bluetooth D) evs).toorx
      ∧ (stateFileRead env (newDomyos env (agentStop
          ((run env (init deviceName fs : Bluetooth D) evs).log
            (Effect.deviceFound dev.name))))).trxappgateusb
          = (run env (init deviceName fs : Bluetooth D) evs).trxappgateusb
      ∧ SeedFree (run env (init deviceName fs : Bluetooth D) evs).domyosBike
      ∧ SeedFree (run env (init deviceName fs : Bluetooth D) evs).toorx
      ∧ SeedFree (run env (init deviceName fs : Bluetooth D) evs).trxappgateusb := by
  refine ⟨?_, ?_, ?_, ?_, ?_⟩
  · simp [device, newDomyos, agentStop, Bluetooth.log]
  · rw [stateFileRead_domyos env _ (newDriver env DriverClass.domyostreadmill) rfl]
    simp [newDomyos, agentStop, Bluetooth.log]
  · rw [stateFileRead_domyos env _ (newDriver env DriverClass.domyostreadmill) rfl]
    simp [newDomyos, agentStop, Bluetooth.log]
  · rw [stateFileRead_domyos env _ (newDriver env DriverClass.domyostreadmill) rfl]
    simp [newDomyos, agentStop, Bluetooth.log]
  · exact run_seedFree env evs (init deviceName fs)
      ⟨seedFree_none, seedFree_none, seedFree_none⟩

theorem seedCalls_skip {D : Type} (env : Env D) (pre : List Node)
    (hpre : ∀ n ∈ pre, ∃ tag a, n = Node.element tag a ∧ tag ≠ "Treadmill")
    (rest : List Node) : seedCalls env (pre ++ rest) = seedCalls env rest := by
  induction pre with
  | nil => rfl
  | cons n pre ih =>
    obtain ⟨tag, a, hn, ht⟩ := hpre n (List.mem_cons_self _ _)
    subst hn
    simp only [List.cons_append, seedCalls, ht, if_false]
    exact ih (fun m hm => hpre m (List.mem_cons_of_mem _ hm))

theorem seedCalls_none {D : Type} (env : Env D) (post : List Node)
    (hpost : ∀ n ∈ post, ∀ a, n ≠ Node.element "Treadmill" a) : seedCalls env post = [] := by
  induction post with
  | nil => rfl
  | cons n post ih =>
    cases n with
    | other => rfl
    | element tag a =>
      have ht : tag ≠ "Treadmill" := by
        intro h
        subst h
        exact hpost _ (List.mem_cons_self _ _) a rfl
      simp only [seedCalls, ht, if_false]
      exact ih (fun m hm => hpost m (List.mem_cons_of_mem _ hm))

/-- C6, amended. When `deviceDiscovered` adopts the Domyos treadmill driver
(the name starts with "Domyos", with neither "Domyos-Bike" nor "DomyosBridge",
and passes the filter) and `status.xml` opens and holds one `Treadmill`
element, preceded by elements only: the new driver receives
`setLastSpeed` with the saved Speed, then `setLastInclination` with the saved
Incline, and only then `deviceDiscovered` with the descriptor. -/
theorem domyos_adoption_replays_saved_state {D : Type} (env : Env D) (b : Bluetooth D)
    (dev : DeviceInfo) (doc : Doc) (pre post : List Node) (attrs : List (String × String))
    (h1 : startsWith dev.name "Domyos" = true)
    (h2 : startsWith dev.name "Domyos-Bike" = false)
    (h3 : startsWith dev.name "DomyosBridge" = false)
    (hflt : b.filterDevice = "" ∨ equalsIgnoreCase env dev.name b.filterDevice)
    (hopen : openRead b.fs = some doc)
    (hdoc : rootChildren doc = pre ++ Node.element "Treadmill" attrs :: post)
    (hpre : ∀ n ∈ pre, ∃ tag a, n = Node.element tag a ∧ tag ≠ "Treadmill")
    (hpost : ∀ n ∈ post, ∀ a, n ≠ Node.element "Treadmill" a) :
    (deviceDiscovered env b dev).domyos = some
      { newDriver env DriverClass.domyostreadmill with
        calls :=
          [ DriverCall.setLastSpeed (env.toDouble (attributeValue attrs "Speed" "0.0")),
            DriverCall.setLastInclination (env.toDouble (attributeValue attrs "Incline" "0.0")),
            DriverCall.deviceDiscovered dev ] } := by
  have hf : nameFilter env (b.log (Effect.deviceFound dev.name)) dev = true := by
    rcases hflt with hF | hE
    · exact nameFilter_true_of_no_filter env b dev _ hF
    · have hc := (compare_eq_zero_iff env _ _).mpr hE
      simp [nameFilter, Bluetooth.log, hc]
  have h : deviceDiscovered env b dev
      = adoptDomyos env (b.log (Effect.deviceFound dev.name)) dev := by
    unfold deviceDiscovered
    simp [h1, h2, h3, hf]
  have hs : savedSeed env b.fs =
      [ DriverCall.setLastSpeed (env.toDouble (attributeValue attrs "Speed" "0.0")),
        DriverCall.setLastInclination (env.toDouble (attributeValue attrs "Incline" "0.0")) ] := by
    unfold savedSeed
    rw [hopen]
    simp only
    rw [hdoc, seedCalls_skip env pre hpre]
    simp [seedCalls, seedCalls_none env post hpost]
  rw [h, adoptDomyos_eq]
  simp [Bluetooth.log, hs]

/-! ## The persisted record, written and read back -/

theorem seedCalls_single {D : Type} (env : Env D) (attrs : List (String × String)) :
    seedCalls env [Node.element "Treadmill" attrs]
      = [ DriverCall.setLastSpeed (env.toDouble (attributeValue attrs "Speed" "0.0")),
          DriverCall.setLastInclination (env.toDouble (attributeValue attrs "Incline" "0.0")) ] := by
  simp [seedCalls]

/-- The reader finds what the writer wrote: the texts that `stateFileUpdate`
stores under `Speed` and `Incline` of the `Treadmill` element are the texts
that `stateFileRead` converts and hands to `setLastSpeed` and
`setLastInclination`. The numeric value of the two conversions is the
library's and is not fixed here. -/
theorem written_record_read_back {D : Type} (env : Env D) (now : String) (b : Bluetooth D)
    (c : DriverClass) (d : Driver D)
    (hdev : device b = some (c, d))
    (ht : env.deviceType c = BluetoothType.TREADMILL)
    (hw : b.fs.writable = true)
    (b2 : Bluetooth D) (d2 : Driver D) (h2 : b2.domyos = some d2)
    (hfile : b2.fs.statusXml = (stateFileUpdate env now b).fs.statusXml)
    (hr : b2.fs.readable = true) :
    (stateFileRead env b2).domyos = some
      { d2 with calls := d2.calls ++
          [ DriverCall.setLastSpeed (env.toDouble (env.numberF d.currentSpeed 1)),
            DriverCall.setLastInclination
              (env.toDouble (env.numberF d.currentInclination 1)) ] } := by
  have hx : b2.fs.statusXml
      = some (statusDoc env now d.currentSpeed d.currentInclination) := by
    rw [hfile]
    simp [stateFileUpdate, hdev, ht, hw]
  have hs : savedSeed env b2.fs =
      [ DriverCall.setLastSpeed (env.toDouble (env.numberF d.currentSpeed 1)),
        DriverCall.setLastInclination (env.toDouble (env.numberF d.currentInclination 1)) ] := by
    simp only [savedSeed, openRead, hr, hx, if_true, rootChildren, statusDoc]
    rw [seedCalls_single, attributeValue_speed, attributeValue_incline]
  rw [stateFileRead_domyos env b2 d2 h2, hs]

/-! ## Concrete runs -/

theorem decimal_saved_speed : decimalToDouble "12.5" = 25 / 2 := by
  have h : "12.5".data = ['1', '2', '.', '5'] := rfl
  simp +decide [decimalToDouble, h, parseDecimal, digitsValue, digitVal, List.takeWhile,
    List.dropWhile]
  norm_num

theorem decimal_saved_incline : decimalToDouble "3.0" = 3 := by
  have h : "3.0".data = ['3', '.', '0'] := rfl
  simp +decide [decimalToDouble, h, parseDecimal, digitsValue, digitVal, List.takeWhile,
    List.dropWhile]

/-- Witness for C1: filter "TOORX Special", discovered name "TOORX". -/
theorem filter_mismatch_creates_nothing_witness :
    deviceDiscovered decimalEnv (init "TOORX Special" fsEmpty)
        { name := "TOORX", address := "00:0C:BF:11:22:33" }
      = (init "TOORX Special" fsEmpty : Bluetooth ℚ).log (Effect.deviceFound "TOORX") :=
  (filter_mismatch_creates_nothing decimalEnv (init "TOORX Special" fsEmpty)
    { name := "TOORX", address := "00:0C:BF:11:22:33" } (by decide)
    (by unfold equalsIgnoreCase; decide)).1

/-- With the filter "TOORX Special", the name "TOORX Special" is adopted by the
TOORX rule. -/
theorem filter_match_adopts_toorx :
    driversCreated (deviceDiscovered decimalEnv (init "TOORX Special" fsEmpty)
        { name := "TOORX Special", address := "00:0C:BF:11:22:33" }).trace
      = [DriverClass.trxappgateusbtreadmill] := by
  decide

/-- Counterexample for C2: two discoveries in a row, with no restart between. -/
theorem two_discoveries_two_handles :
    ¬ liveHandles (run decimalEnv (init "" fsEmpty)
        [ Event.deviceDiscovered { name := "Domyos-Bike-1", address := "00:0C:BF:11:22:33" },
          Event.deviceDiscovered { name := "Domyos Treadmill", address := "00:0C:BF:44:55:66" } ])
      ≤ 1 := by
  decide

/-- Witness for C2, amended: bike found, disconnect, treadmill found. -/
theorem at_most_one_handle_while_scan_gated_witness :
    liveHandles (run decimalEnv (init "" fsEmpty)
        [ Event.deviceDiscovered { name := "Domyos-Bike-1", address := "00:0C:BF:11:22:33" },
          Event.restart,
          Event.deviceDiscovered { name := "Domyos Treadmill", address := "00:0C:BF:44:55:66" } ])
      ≤ 1 :=
  (at_most_one_handle_while_scan_gated decimalEnv "" fsEmpty
    [ Event.deviceDiscovered { name := "Domyos-Bike-1", address := "00:0C:BF:11:22:33" },
      Event.restart,
      Event.deviceDiscovered { name := "Domyos Treadmill", address := "00:0C:BF:44:55:66" } ]
    (by decide)).1

/-- Witness for C4: the name "DomyosBridge-9", without and with a filter equal to it. -/
theorem bridge_name_creates_nothing_witness :
    deviceDiscovered decimalEnv (init "" fsEmpty)
        { name := "DomyosBridge-9", address := "00:0C:BF:11:22:33" }
      = (init "" fsEmpty : Bluetooth ℚ).log (Effect.deviceFound "DomyosBridge-9")
    ∧ deviceDiscovered decimalEnv (init "DomyosBridge-9" fsEmpty)
        { name := "DomyosBridge-9", address := "00:0C:BF:11:22:33" }
      = (init "DomyosBridge-9" fsEmpty : Bluetooth ℚ).log (Effect.deviceFound "DomyosBridge-9") :=
  ⟨(bridge_name_creates_nothing decimalEnv (init "" fsEmpty)
      { name := "DomyosBridge-9", address := "00:0C:BF:11:22:33" } (by decide)).1,
   (bridge_name_creates_nothing decimalEnv (init "DomyosBridge-9" fsEmpty)
      { name := "DomyosBridge-9", address := "00:0C:BF:11:22:33" } (by decide)).1⟩

/-- Witness for C5: "Domyos Treadmill" yields the treadmill driver, "Domyos-Bike-1"
the bike driver. -/
theorem domyos_prefix_rules_witness :
    driversCreated (deviceDiscovered decimalEnv (init "" fsEmpty)
        { name := "Domyos Treadmill", address := "00:0C:BF:44:55:66" }).trace
      = [DriverClass.domyostreadmill]
    ∧ driversCreated (deviceDiscovered decimalEnv (init "" fsEmpty)
        { name := "Domyos-Bike-1", address := "00:0C:BF:11:22:33" }).trace
      = [DriverClass.domyosbike] :=
  ⟨((domyos_prefix_rules decimalEnv (init "" fsEmpty)
      { name := "Domyos Treadmill", address := "00:0C:BF:44:55:66" } rfl).1
      (by decide) (by decide) (by decide)).1,
   ((domyos_prefix_rules decimalEnv (init "" fsEmpty)
      { name := "Domyos-Bike-1", address := "00:0C:BF:11:22:33" } rfl).2 (by decide)).2.1⟩

/-- Counterexample for C6: with the record Speed 12.5, Incline 3.0 saved, a
device named "TOORX" and one named "TRX ROUTE KEY 7" are adopted as treadmill
drivers that receive the descriptor and nothing else: no `setLastSpeed`, no
`setLastInclination`. -/
theorem toorx_adoption_is_not_seeded :
    openRead fsSaved = some savedDoc
      ∧ decimalEnv.deviceType DriverClass.trxappgateusbtreadmill = BluetoothType.TREADMILL
      ∧ decimalEnv.deviceType DriverClass.toorxtreadmill = BluetoothType.TREADMILL
      ∧ (deviceDiscovered decimalEnv (init "" fsSaved)
          { name := "TOORX", address := "00:0C:BF:77:88:99" }).trxappgateusb
        = some { currentSpeed := 0, currentInclination := 0
                 calls := [DriverCall.deviceDiscovered
                   { name := "TOORX", address := "00:0C:BF:77:88:99" }] }
      ∧ (deviceDiscovered decimalEnv (init "" fsSaved)
          { name := "TRX ROUTE KEY 7", address := "00:0C:BF:77:88:99" }).toorx
        = some { currentSpeed := 0, currentInclination := 0
                 calls := [DriverCall.deviceDiscovered
                   { name := "TRX ROUTE KEY 7", address := "00:0C:BF:77:88:99" }] } := by
  refine ⟨rfl, rfl, rfl, ?_, ?_⟩
  · rfl
  · rfl

/-- Witness for C6, amended: with Speed 12.5 and Incline 3.0 saved, the driver
adopted for "Domyos Treadmill" receives 12.5 and 3.0 before the descriptor. -/
theorem domyos_adoption_replays_saved_state_witness :
    (deviceDiscovered decimalEnv (init "" fsSaved)
        { name := "Domyos Treadmill", address := "00:0C:BF:44:55:66" }).domyos
      = some
        { currentSpeed := 0, currentInclination := 0
          calls :=
            [ DriverCall.setLastSpeed (25 / 2), DriverCall.setLastInclination 3,
              DriverCall.deviceDiscovered
                { name := "Domyos Treadmill", address := "00:0C:BF:44:55:66" } ] } := by
  have h := domyos_adoption_replays_saved_state decimalEnv (init "" fsSaved)
    { name := "Domyos Treadmill", address := "00:0C:BF:44:55:66" } savedDoc [] []
    [("Incline", "3.0"), ("Speed", "12.5")] (by decide) (by decide) (by decide)
    (Or.inl rfl) rfl rfl (by simp) (by simp)
  have e1 : attributeValue [("Incline", "3.0"), ("Speed", "12.5")] "Speed" "0.0" = "12.5" := by
    decide
  have e2 : attributeValue [("Incline", "3.0"), ("Speed", "12.5")] "Incline" "0.0" = "3.0" := by
    decide
  rw [e1, e2] at h
  have t1 : decimalEnv.toDouble "12.5" = 25 / 2 := decimal_saved_speed
  have t2 : decimalEnv.toDouble "3.0" = 3 := decimal_saved_incline
  rw [t1, t2] at h
  exact h

/-- Witness for C7: an active bike leaves the file as it was; an active
treadmill at 12.34 and 3 writes Speed "12.3" and Incline "3.0". -/
theorem stateFileUpdate_writes_only_for_treadmill_witness :
    stateFileUpdate decimalEnv "Fri Oct 30 12:00:01 2026" runningBike = runningBike
      ∧ ∃ attrs,
          (stateFileUpdate decimalEnv "Fri Oct 30 12:00:01 2026" runningTreadmill).fs.statusXml
            = some
              { root := some
                  { tag := "Gym", attrs := [("Updated", "Fri Oct 30 12:00:01 2026")]
                    children := [Node.element "Treadmill" attrs] } }
          ∧ attributeValue attrs "Speed" "0.0" = decimalEnv.numberF (1234 / 100) 1
          ∧ attributeValue attrs "Incline" "0.0" = decimalEnv.numberF 3 1 :=
  ⟨(stateFileUpdate_writes_only_for_treadmill decimalEnv "Fri Oct 30 12:00:01 2026"
      runningBike).2.2.2.1 DriverClass.domyosbike
      { currentSpeed := 20, currentInclination := 0, calls := [] } rfl (by decide),
   (stateFileUpdate_writes_only_for_treadmill decimalEnv "Fri Oct 30 12:00:01 2026"
      runningTreadmill).2.2.2.2 DriverClass.domyostreadmill
      { currentSpeed := 1234 / 100, currentInclination := 3, calls := [] } rfl rfl rfl⟩

/-- Witness for C8: the interrupt signal (value 2) removes an existing file;
the signal 15 leaves the state unchanged. -/
theorem handleSignal_propagates_and_clears_witness :
    (handleSignal 2 (init "" fsSaved : Bluetooth ℚ) 2).1.fs.statusXml = none
      ∧ (handleSignal 2 (init "" fsSaved : Bluetooth ℚ) 2).2 = true
      ∧ (handleSignal 2 (init "" fsSaved : Bluetooth ℚ) 15).1 = init "" fsSaved :=
  ⟨(handleSignal_propagates_and_clears 2 (init "" fsSaved : Bluetooth ℚ) 2).2.1 rfl,
   (handleSignal_propagates_and_clears 2 (init "" fsSaved : Bluetooth ℚ) 2).1,
   (handleSignal_propagates_and_clears 2 (init "" fsSaved : Bluetooth ℚ) 15).2.2.1 (by decide)⟩

/-- Witness for C3: with a Domyos treadmill active, `restart` logs its
`delete` and then the `start()`, and no device is active afterwards. -/
theorem restart_releases_and_rescans_witness :
    device runningTreadmill
        = some (DriverClass.domyostreadmill,
            { currentSpeed := 1234 / 100, currentInclination := 3, calls := [] })
      ∧ (restart runningTreadmill).trace.count (Effect.deleted DriverClass.domyostreadmill)
        = runningTreadmill.trace.count (Effect.deleted DriverClass.domyostreadmill) + 1
      ∧ device (restart runningTreadmill) = none
      ∧ (restart runningTreadmill).scanning = true :=
  ⟨rfl,
   (restart_releases_and_rescans runningTreadmill).2.2.2.2.2.2.2.2.2.1
     DriverClass.domyostreadmill
     { currentSpeed := 1234 / 100, currentInclination := 3, calls := [] } rfl,
   (restart_releases_and_rescans runningTreadmill).2.2.2.2.1,
   (restart_releases_and_rescans runningTreadmill).2.2.2.2.2.1⟩

end QZ
